import Mathlib

/-!
Verification development for the PMS ping monitor (src/PMS.py).

The Python program is a PyQt5 GUI around a polling engine: a registry of
devices (list `self.devices`), a worker (`PingWorker.run`) that probes every
device in a loop with a subprocess ping, per-device update signals, a timer
based scheduler (`start`/`stop`), and registry operations `add_device`,
`remove_device`, `clear_stats`.  Below, each Python function is embedded as a
pure Lean function; GUI widgets are reduced to the observable state they carry
(table row count, button label, timer flags).
-/

namespace PMS

/-- Outcome of one subprocess ping inside PingWorker.run (PMS.py lines 86-108):
the process exits with code 0, exits with a nonzero code, or the call raises
(spawn failure, timeout, malformed target - all caught by the bare except). -/
inductive ProbeOutcome where
  | success
  | failure
  | error
deriving DecidableEq

/-- The Device dataclass (PMS.py lines 29-37).  Python integers are modelled
as Int so that non-negativity is a real statement. -/
structure Device where
  ip : String
  name : String
  success : Int := 0
  fail : Int := 0
  total : Int := 0
  last_result : Bool := false
  is_active : Bool := true
deriving DecidableEq

/-- Device construction as performed by add_device: Device(ip=ip, name=name),
all counters at their dataclass defaults. -/
def mkDevice (ip name : String) : Device :=
  { ip := ip, name := name }

/-- The per-device body of PingWorker.run (PMS.py lines 89-106): on exit code 0
increment total and success and set last_result true; on a nonzero exit code
increment total and fail and set last_result false; on an exception increment
fail and total and set last_result false. -/
def probeApply (d : Device) (o : ProbeOutcome) : Device :=
  match o with
  | ProbeOutcome.success =>
      { d with total := d.total + 1, success := d.success + 1, last_result := true }
  | ProbeOutcome.failure =>
      { d with total := d.total + 1, fail := d.fail + 1, last_result := false }
  | ProbeOutcome.error =>
      { d with fail := d.fail + 1, total := d.total + 1, last_result := false }

/-- The per-device body of clear_stats (PMS.py line 288):
device.success = device.fail = device.total = 0, last_result untouched. -/
def clearDevice (d : Device) : Device :=
  { d with success := 0, fail := 0, total := 0 }

/-- Python str truthiness and str.strip both key on whitespace characters;
these are the whitespace characters str.strip removes by default in the
ASCII range. -/
def pyIsSpace (c : Char) : Bool :=
  c = ' ' || c = '\t' || c = '\n' || c = '\r' || c = '\x0b' || c = '\x0c'

/-- Python `not name.strip()` : true exactly when every character of the
string is whitespace (including the empty string). -/
def allSpace (s : String) : Bool :=
  s.data.all pyIsSpace

/-- The registry state of PingMonitor that add_device, remove_device and
clear_stats touch: the devices list and the auto-name counter
self.unnamed_count (PMS.py lines 116, 123). -/
structure Monitor where
  devices : List Device
  unnamed_count : Nat
deriving DecidableEq

/-- Result tag of one add_device call: either the device was appended, or the
empty-address guard fired (QMessageBox warning, immediate return). -/
inductive AddOutcome where
  | ok
  | invalidInput
deriving DecidableEq

/-- add_device (PMS.py lines 238-248).  `if not ip` rejects exactly the empty
string, with no mutation; `if not name.strip()` assigns the next auto name
Switch(unnamed_count+1) after incrementing the counter; the device is appended
with the address exactly as given (never trimmed). -/
def add_device (m : Monitor) (ip name : String) : Monitor × AddOutcome :=
  if ip = "" then
    (m, AddOutcome.invalidInput)
  else if allSpace name then
    let cnt := m.unnamed_count + 1
    ({ devices := m.devices ++ [mkDevice ip ("Switch" ++ toString cnt)],
       unnamed_count := cnt }, AddOutcome.ok)
  else
    ({ devices := m.devices ++ [mkDevice ip name],
       unnamed_count := m.unnamed_count }, AddOutcome.ok)

/-- remove_device (PMS.py lines 250-253): delete by position when the index is
in range, otherwise do nothing. -/
def remove_device (m : Monitor) (index : Nat) : Monitor :=
  if index < m.devices.length then
    { m with devices := m.devices.eraseIdx index }
  else m

/-- clear_stats (PMS.py lines 286-289): reset the three counters of every
device. -/
def clear_stats (m : Monitor) : Monitor :=
  { m with devices := m.devices.map clearDevice }

/-- Convenience runner for scenario statements: the monitor state after one
add_device call (on the error path the state is unchanged, as in the code). -/
def addForce (m : Monitor) (ip name : String) : Monitor :=
  (add_device m ip name).1

/-- Display names of the registry in order. -/
def namesOf (m : Monitor) : List String :=
  m.devices.map Device.name

/-- The counter invariant of the spec: total equals success plus fail, and all
three counters are non-negative. -/
def CounterInv (d : Device) : Prop :=
  d.total = d.success + d.fail ∧ 0 ≤ d.success ∧ 0 ≤ d.fail ∧ 0 ≤ d.total

/-- color_row (PMS.py lines 276-284) reduced to the colour it assigns to the
row: green when running and last_result, red when running and not last_result,
white when stopped. -/
def color_row (running : Bool) (d : Device) : String :=
  if running then
    if d.last_result then "#00c853" else "#d50000"
  else "#ffffff"

/-- Claim C1: after device creation, after merging a probe result (any of the
three paths of PingWorker.run, the exception path included), and after
clear_stats, the invariant total = success + fail holds with all three
counters non-negative, and a fresh device starts with all three at 0. -/
theorem C1_counter_invariant (ip name : String) (d : Device) (o : ProbeOutcome)
    (h : CounterInv d) :
    ((mkDevice ip name).success = 0 ∧ (mkDevice ip name).fail = 0 ∧
      (mkDevice ip name).total = 0)
    ∧ CounterInv (mkDevice ip name)
    ∧ CounterInv (probeApply d o)
    ∧ CounterInv (clearDevice d) := by
  obtain ⟨h1, h2, h3, h4⟩ := h
  refine ⟨⟨rfl, rfl, rfl⟩, ⟨rfl, le_refl 0, le_refl 0, le_refl 0⟩, ?_, ?_⟩
  · cases o <;> exact ⟨by simp [probeApply]; omega, by simp [probeApply]; omega,
      by simp [probeApply]; omega, by simp [probeApply]; omega⟩
  · exact ⟨by simp [clearDevice], by simp [clearDevice], by simp [clearDevice],
      by simp [clearDevice]⟩

/-- Witness for C1 at a concrete device and outcome. -/
theorem C1_counter_invariant_holds :
    (((mkDevice "10.0.0.1" "Switch1").success = 0 ∧
       (mkDevice "10.0.0.1" "Switch1").fail = 0 ∧
       (mkDevice "10.0.0.1" "Switch1").total = 0)
     ∧ CounterInv (mkDevice "10.0.0.1" "Switch1")
     ∧ CounterInv (probeApply (mkDevice "10.0.0.9" "sw") ProbeOutcome.success)
     ∧ CounterInv (clearDevice (mkDevice "10.0.0.9" "sw"))) :=
  C1_counter_invariant "10.0.0.1" "Switch1" (mkDevice "10.0.0.9" "sw")
    ProbeOutcome.success ⟨rfl, le_refl 0, le_refl 0, le_refl 0⟩

/-- Claim C5, counterexample: a freshly created device (total = 0, never
probed) carries last_result = false, the very same value a failed probe
leaves, so there is no distinct unknown state distinguishable from
unreachable. -/
theorem C5_no_unknown_state :
    (mkDevice "10.0.0.1" "Switch1").total = 0
    ∧ (mkDevice "10.0.0.1" "Switch1").last_result = false
    ∧ (mkDevice "10.0.0.1" "Switch1").last_result
        = (probeApply (mkDevice "10.0.0.1" "Switch1") ProbeOutcome.failure).last_result := by
  exact ⟨rfl, rfl, rfl⟩

/-- Claim C5 as amended: last_result is a two-state boolean, false at creation
and after any unsuccessful probe, true after a successful one; while running,
a never-probed device is rendered with exactly the colour of an unreachable
one. -/
theorem C5_boolean_last_result (ip name : String) (d : Device) :
    (mkDevice ip name).last_result = false
    ∧ (probeApply d ProbeOutcome.failure).last_result = false
    ∧ (probeApply d ProbeOutcome.error).last_result = false
    ∧ (probeApply d ProbeOutcome.success).last_result = true
    ∧ color_row true (mkDevice ip name)
        = color_row true (probeApply (mkDevice ip name) ProbeOutcome.failure) := by
  exact ⟨rfl, rfl, rfl, rfl, rfl⟩

/-- Claim C7: from the fresh monitor, three adds with empty or whitespace
names yield Switch1, Switch2, Switch3 in order; after removing Switch1 the
next such add yields Switch4 (the counter never decreases), not Switch1. -/
theorem C7_auto_names :
    namesOf (addForce (Monitor.mk [] 0) "10.0.0.1" "") = ["Switch1"]
    ∧ namesOf (addForce (addForce (Monitor.mk [] 0) "10.0.0.1" "") "10.0.0.2" " ")
        = ["Switch1", "Switch2"]
    ∧ namesOf (addForce (addForce (addForce (Monitor.mk [] 0) "10.0.0.1" "")
        "10.0.0.2" " ") "10.0.0.3" "\t")
        = ["Switch1", "Switch2", "Switch3"]
    ∧ namesOf (addForce (remove_device (addForce (addForce (addForce
        (Monitor.mk [] 0) "10.0.0.1" "") "10.0.0.2" " ") "10.0.0.3" "\t") 0)
        "10.0.0.4" "")
        = ["Switch2", "Switch3", "Switch4"] := by
  decide

/-- Claim C8: for every name and every registry state, adding with the empty
address signals invalidInput and leaves the registry untouched (same list,
hence same length and order). -/
theorem C8_empty_address_rejected (m : Monitor) (name : String) :
    (add_device m "" name).2 = AddOutcome.invalidInput
    ∧ (add_device m "" name).1 = m
    ∧ (add_device m "" name).1.devices = m.devices := by
  simp [add_device]

/-- Claim C10: a whitespace-only (hence nonempty) address is accepted and
appended verbatim, untrimmed; only the name argument is whitespace-tested. -/
theorem C10_whitespace_address_accepted (m : Monitor) (s name : String)
    (h1 : s ≠ "") (h2 : allSpace s = true) :
    (add_device m s name).2 = AddOutcome.ok
    ∧ ((add_device m s name).1.devices).map Device.ip
        = m.devices.map Device.ip ++ [s]
    ∧ (add_device m s name).1.devices.length = m.devices.length + 1 := by
  unfold add_device
  rw [if_neg h1]
  by_cases hn : allSpace name = true
  · rw [if_pos hn]
    simp [mkDevice]
  · rw [if_neg hn]
    simp [mkDevice]

/-- Witness for C10 at the one-space address. -/
theorem C10_whitespace_address_accepted_holds :
    (add_device (Monitor.mk [] 0) " " "x").2 = AddOutcome.ok
    ∧ ((add_device (Monitor.mk [] 0) " " "x").1.devices).map Device.ip
        = (Monitor.mk [] 0).devices.map Device.ip ++ [" "]
    ∧ (add_device (Monitor.mk [] 0) " " "x").1.devices.length
        = (Monitor.mk [] 0).devices.length + 1 :=
  C10_whitespace_address_accepted (Monitor.mk [] 0) " " "x"
    (by decide) (by decide)

/-- The scheduler state touched by start and stop (PMS.py lines 225-236):
the running flag, the QTimer active flag with its interval in milliseconds,
the toggle-button label, and the configuration field ping_interval the timer
interval is computed from. -/
structure SchedState where
  ping_interval : Nat
  running : Bool
  timerActive : Bool
  timerIntervalMs : Nat
  btnLabel : String
deriving DecidableEq

/-- start (PMS.py lines 225-229): set running, start the timer at
ping_interval seconds, relabel the button Stop. -/
def start (s : SchedState) : SchedState :=
  { s with running := true, timerActive := true,
           timerIntervalMs := s.ping_interval * 1000, btnLabel := "Stop" }

/-- stop (PMS.py lines 231-236): clear running, stop the timer, relabel the
button Start (refresh_table only redraws and moves no scheduler state). -/
def stop (s : SchedState) : SchedState :=
  { s with running := false, timerActive := false, btnLabel := "Start" }

/-- Claim C9: start and stop are idempotent on scheduler state: a second
consecutive call leaves the state exactly as the first call left it. -/
theorem C9_start_stop_idempotent (s : SchedState) :
    start (start s) = start s ∧ stop (stop s) = stop s := by
  exact ⟨rfl, rfl⟩

/-- The timeout conversion of PingWorker.run (PMS.py line 87):
timeout_sec = max(1, int(self.timeout / 1000)), whole seconds passed as the
ping -W wait; the subprocess call itself is capped at timeout_sec + 1
seconds. -/
def timeout_sec (timeout_ms : Nat) : Nat :=
  max 1 (timeout_ms / 1000)

/-- Claim C6, counterexample: at the admissible setting probe_timeout =
100 ms, the wait actually handed to the probe is timeout_sec 100 = 1 second,
i.e. 1000 ms, not 100 ms, and the worst-case block of
(timeout_sec 100 + 1) seconds = 2000 ms exceeds the configured timeout even
after granting a full second of grace. -/
theorem C6_subsecond_counterexample :
    (100 ≤ (100 : Nat) ∧ (100 : Nat) ≤ 10000)
    ∧ timeout_sec 100 = 1
    ∧ 1000 * timeout_sec 100 ≠ 100
    ∧ 100 + 1000 < 1000 * (timeout_sec 100 + 1) := by
  decide

/-- Claim C6 as amended: the probe timeout is the configured probe_timeout
converted to whole seconds as max(1, probe_timeout / 1000); whenever the
configured value is a multiple of 1000 ms (so at least 1000 ms within the
admissible range), that conversion is exact and the subprocess cap sits
exactly one second above it. -/
theorem C6_timeout_whole_seconds (t : Nat) (h1 : 1000 ≤ t) (h2 : t ≤ 10000)
    (h3 : 1000 ∣ t) :
    1000 * timeout_sec t = t
    ∧ 1000 * (timeout_sec t + 1) = t + 1000 := by
  obtain ⟨k, rfl⟩ := h3
  have hk : 1 ≤ k := by omega
  have hmax : timeout_sec (1000 * k) = k := by
    unfold timeout_sec
    rw [Nat.mul_div_cancel_left k (by norm_num)]
    omega
  rw [hmax]
  constructor
  · rfl
  · ring

/-- Witness for C6 as amended, at probe_timeout = 2000 ms. -/
theorem C6_timeout_whole_seconds_holds :
    1000 * timeout_sec 2000 = 2000
    ∧ 1000 * (timeout_sec 2000 + 1) = 2000 + 1000 :=
  C6_timeout_whole_seconds 2000 (by decide) (by decide) (by decide)

/-- The observable events of one tick: the per-device update_device signal
with its loop index and updated device, and the final finished signal
(PMS.py lines 107-108). -/
inductive Event where
  | update (index : Nat) (d : Device)
  | finished
deriving DecidableEq

/-- PingWorker.run as an index-carrying loop: one update event per device in
list order, then the finished event.  The outcome component records how the
subprocess call for that device resolved. -/
def runAux (i : Nat) : List (Device × ProbeOutcome) → List Event
  | [] => [Event.finished]
  | p :: rest => Event.update i (probeApply p.1 p.2) :: runAux (i + 1) rest

/-- PingWorker.run over the whole snapshot, starting at index 0. -/
def runWorker (l : List (Device × ProbeOutcome)) : List Event :=
  runAux 0 l

/-- One probe job of a tick, with an artificial delay (the time the
subprocess call takes to resolve) for the timing statements. -/
structure Job where
  dev : Device
  outc : ProbeOutcome
  delay : Nat
deriving DecidableEq

/-- PingWorker.run with time: the loop is sequential, so each update event is
stamped with the running total of the delays so far, and the finished event
with the total of all delays. -/
def runTimedAux (t i : Nat) : List Job → List (Nat × Event)
  | [] => [(t, Event.finished)]
  | j :: rest =>
      (t + j.delay, Event.update i (probeApply j.dev j.outc))
        :: runTimedAux (t + j.delay) (i + 1) rest

/-- The timed trace of one tick, from time 0 and index 0. -/
def runTimed (jobs : List Job) : List (Nat × Event) :=
  runTimedAux 0 0 jobs

theorem runAux_length (i : Nat) (l : List (Device × ProbeOutcome)) :
    (runAux i l).length = l.length + 1 := by
  induction l generalizing i with
  | nil => rfl
  | cons p rest ih => simp [runAux, ih]

theorem getLast_cons_ne {α : Type} (a : α) (l : List α) (h : l ≠ []) :
    (a :: l).getLast? = l.getLast? := by
  cases l with
  | nil => exact absurd rfl h
  | cons b m => exact List.getLast?_cons_cons

theorem runAux_getLast (i : Nat) (l : List (Device × ProbeOutcome)) :
    (runAux i l).getLast? = some Event.finished := by
  induction l generalizing i with
  | nil => rfl
  | cons p rest ih =>
      have hne : runAux (i + 1) rest ≠ [] := by
        cases rest <;> simp [runAux]
      rw [runAux, getLast_cons_ne _ _ hne]
      exact ih (i + 1)

theorem probeApply_error_eq_failure (d : Device) :
    probeApply d ProbeOutcome.error = probeApply d ProbeOutcome.failure := rfl

theorem runAux_error_eq_failure (i : Nat) (pre post : List (Device × ProbeOutcome))
    (d : Device) :
    runAux i (pre ++ (d, ProbeOutcome.error) :: post)
      = runAux i (pre ++ (d, ProbeOutcome.failure) :: post) := by
  induction pre generalizing i with
  | nil => simp [runAux, probeApply_error_eq_failure]
  | cons p rest ih => simp [runAux, ih]

/-- Claim C4: a probe that raises is handled exactly like a genuine
unreachable probe - the whole tick trace is the same event for event - with
fail and total incremented and last_result false, and it neither removes any
later update event nor the final finished event: the trace still has one
event per snapshotted device plus the finished event last. -/
theorem C4_fault_normalization (pre post : List (Device × ProbeOutcome))
    (d : Device) :
    runWorker (pre ++ (d, ProbeOutcome.error) :: post)
      = runWorker (pre ++ (d, ProbeOutcome.failure) :: post)
    ∧ (probeApply d ProbeOutcome.error).fail = d.fail + 1
    ∧ (probeApply d ProbeOutcome.error).total = d.total + 1
    ∧ (probeApply d ProbeOutcome.error).last_result = false
    ∧ (runWorker (pre ++ (d, ProbeOutcome.error) :: post)).length
        = (pre ++ (d, ProbeOutcome.error) :: post).length + 1
    ∧ (runWorker (pre ++ (d, ProbeOutcome.error) :: post)).getLast?
        = some Event.finished := by
  refine ⟨runAux_error_eq_failure 0 pre post d, rfl, rfl, rfl, ?_, ?_⟩
  · exact runAux_length 0 _
  · exact runAux_getLast 0 _

theorem runTimedAux_map_snd (t i : Nat) (jobs : List Job) :
    (runTimedAux t i jobs).map Prod.snd
      = List.zipWith (fun k j => Event.update k (probeApply j.dev j.outc))
          (List.range' i jobs.length) jobs ++ [Event.finished] := by
  induction jobs generalizing t i with
  | nil => rfl
  | cons j rest ih =>
      simp only [runTimedAux, List.map_cons, List.length_cons, List.range'_succ,
        List.zipWith_cons_cons, List.cons_append]
      rw [ih]

theorem runTimedAux_getLast (t i : Nat) (jobs : List Job) :
    (runTimedAux t i jobs).getLast?
      = some (t + (jobs.map Job.delay).sum, Event.finished) := by
  induction jobs generalizing t i with
  | nil => simp [runTimedAux]
  | cons j rest ih =>
      have hne : runTimedAux (t + j.delay) (i + 1) rest ≠ [] := by
        cases rest <;> simp [runTimedAux]
      rw [runTimedAux, getLast_cons_ne _ _ hne, ih]
      have harith : t + j.delay + (List.map Job.delay rest).sum
          = t + (List.map Job.delay (j :: rest)).sum := by
        simp
        omega
      rw [harith]

/-- Claim C2 as amended: PingWorker.run serializes the probes of a tick: the
update events are emitted in registry (snapshot) order - index 0, 1, ... in
list order regardless of the delays - followed by exactly one finished event,
and that finished event is stamped with the sum of all probe delays, not
their maximum. -/
theorem C2_sequential_trace (jobs : List Job) :
    (runTimed jobs).map Prod.snd
      = List.zipWith (fun k j => Event.update k (probeApply j.dev j.outc))
          (List.range jobs.length) jobs ++ [Event.finished]
    ∧ (runTimed jobs).getLast?
        = some ((jobs.map Job.delay).sum, Event.finished) := by
  constructor
  · rw [runTimed, runTimedAux_map_snd, List.range_eq_range']
  · rw [runTimed, runTimedAux_getLast]
    simp

/-- Claim C2, counterexample: two devices with delays 5 and 1.  The trace of
PingWorker.run emits the update for index 0 (delay 5) first, at time 5, and
the update for index 1 (delay 1) only afterwards, at time 6 - the event order
is not ascending delay order (which would put the delay-1 device first), and
the fast device is reported 5 time units later than its own delay because the
slow device runs before it. -/
theorem C2_serialized_counterexample :
    runTimed [Job.mk (mkDevice "10.0.0.1" "A") ProbeOutcome.success 5,
              Job.mk (mkDevice "10.0.0.2" "B") ProbeOutcome.success 1]
      = [(5, Event.update 0 (probeApply (mkDevice "10.0.0.1" "A") ProbeOutcome.success)),
         (6, Event.update 1 (probeApply (mkDevice "10.0.0.2" "B") ProbeOutcome.success)),
         (6, Event.finished)]
    ∧ (runTimed [Job.mk (mkDevice "10.0.0.1" "A") ProbeOutcome.success 5,
                 Job.mk (mkDevice "10.0.0.2" "B") ProbeOutcome.success 1]).map Prod.snd
        ≠ [Event.update 1 (probeApply (mkDevice "10.0.0.2" "B") ProbeOutcome.success),
           Event.update 0 (probeApply (mkDevice "10.0.0.1" "A") ProbeOutcome.success),
           Event.finished] := by
  decide

/-- update_device_row (PMS.py lines 315-319) reduced to whether it survives:
color_row guards a missing item with `if item`, but the following
self.table.item(index, 2).setText call has no guard, so it succeeds exactly
when the index is within the current table row count and otherwise
dereferences None and raises. -/
def update_device_row_ok (rowCount index : Nat) : Bool :=
  decide (index < rowCount)

/-- One interleaving action of a tick that overlaps registry mutation:
the worker fetches the next device from the live list, a fetched probe
resolves (mutating the device object, emitting its update signal and running
the GUI slot), or the user removes a device (remove_device followed by
refresh_table, which resizes the table to the new list length). -/
inductive TickAction where
  | fetch
  | resolve (o : ProbeOutcome)
  | removeAt (j : Nat)
deriving DecidableEq

/-- The shared state of PingMonitor and a running PingWorker.  Device objects
live in an arena so that Python aliasing is modelled faithfully: the registry
is a list of references into the arena, PingWorker iterates that same live
list by index (self.devices is the identical list object), and a worker that
has already fetched a device keeps mutating the object even after the
reference is removed from the registry. -/
structure EngineState where
  arena : List Device
  registry : List Nat
  rowCount : Nat
  workerIdx : Nat
  pending : Option (Nat × Nat)
  events : List Event
  crashed : Bool
  workerDone : Bool
deriving DecidableEq

/-- One step of the interleaved execution.  fetch is the loop head of
PingWorker.run: read self.devices[index] when in range, otherwise fall out of
the loop and emit finished.  resolve is the loop body after the subprocess
returns: update the fetched device object, emit update_device(index, device),
and run the connected update_device_row slot, which crashes when the index is
no longer a valid table row.  removeAt is remove_device plus refresh_table. -/
def step (s : EngineState) (a : TickAction) : EngineState :=
  match a with
  | TickAction.fetch =>
      if s.workerDone then s
      else
        match s.pending with
        | some _ => s
        | none =>
            match s.registry.get? s.workerIdx with
            | some r => { s with pending := some (s.workerIdx, r) }
            | none => { s with workerDone := true,
                               events := s.events ++ [Event.finished] }
  | TickAction.resolve o =>
      match s.pending with
      | none => s
      | some (i, r) =>
          match s.arena.get? r with
          | none => s
          | some d =>
              let d2 := probeApply d o
              { s with arena := s.arena.set r d2,
                       pending := none,
                       workerIdx := i + 1,
                       events := s.events ++ [Event.update i d2],
                       crashed := s.crashed || !(update_device_row_ok s.rowCount i) }
  | TickAction.removeAt j =>
      if j < s.registry.length then
        let reg := s.registry.eraseIdx j
        { s with registry := reg, rowCount := reg.length }
      else s

/-- Run a sequence of interleaving actions. -/
def stepRun (s : EngineState) (acts : List TickAction) : EngineState :=
  acts.foldl step s

/-- The engine state at the start of a tick over a one-device registry:
one device object, one registry reference, one table row, worker at index 0
with nothing fetched yet. -/
def c3Start : EngineState :=
  { arena := [mkDevice "10.0.0.1" "Switch1"],
    registry := [0],
    rowCount := 1,
    workerIdx := 0,
    pending := none,
    events := [],
    crashed := false,
    workerDone := false }

/-- Claim C3, evaluated at the failing input: one registered device; the
worker fetches it, the user removes it (registry shrinks to the empty list,
table to zero rows), then its probe resolves.  The code still emits
update_device(0, device) for the removed device, and the connected
update_device_row slot dereferences the now-missing table cell - the crashed
flag records the unguarded None dereference of table.item(0, 2).setText.
The registry length does decrease by exactly one. -/
theorem C3_removed_device_crash :
    (stepRun c3Start
        [TickAction.fetch, TickAction.removeAt 0,
         TickAction.resolve ProbeOutcome.success]).crashed = true
    ∧ (stepRun c3Start
        [TickAction.fetch, TickAction.removeAt 0,
         TickAction.resolve ProbeOutcome.success]).events
        = [Event.update 0 (probeApply (mkDevice "10.0.0.1" "Switch1")
             ProbeOutcome.success)]
    ∧ (stepRun c3Start
        [TickAction.fetch, TickAction.removeAt 0,
         TickAction.resolve ProbeOutcome.success]).registry.length + 1
        = c3Start.registry.length := by
  decide

end PMS
